import Mathlib

/-!
Verification of the hata WebSocket protocol engine
(src/hata/backend/websocket.py) against its natural-language
specification.

The development is a shallow embedding: Python byte strings become
`List Nat` (each entry a byte value), the connection object
`WebSocketCommonProtocol` becomes the record `WS.WSConn`, and each
method of the source that the claims mention becomes a Lean function
translated line by line from the Python.  Asynchronous waits (awaiting
a future, timeouts, the drain lock) have no observable effect on the
data manipulated here and are noted in the doc comments where they are
elided.  The message queue type `AsyncQue` and the `Frame` record live
in modules that are not part of the analysed sources
(futures.py / protocol.py); they are modelled from the specification
text, as marked on their doc comments.
-/

namespace WS

/-- Frame opcodes, values as documented in the table inside
websocket.py (write_frame doc): CONT 0, TEXT 1, BINARY 2, CLOSE 8,
PING 9, PONG 10. -/
def WS_OP_CONT : Nat := 0

def WS_OP_TEXT : Nat := 1

def WS_OP_BINARY : Nat := 2

def WS_OP_CLOSE : Nat := 8

def WS_OP_PING : Nat := 9

def WS_OP_PONG : Nat := 10

/-- Connection states, from websocket.py: CONNECTING, OPEN, CLOSING, CLOSED. -/
inductive WSState where
  | CONNECTING
  | OPEN
  | CLOSING
  | CLOSED
deriving DecidableEq, Repr

/-- Modelled from the spec: a wire frame is
"{ final: bool, opcode: enum, payload: bytes }".  The concrete Frame
class lives in protocol.py which is not among the analysed sources;
only the three fields used by websocket.py are modelled. -/
structure Frame where
  fin : Bool
  opcode : Nat
  data : List Nat
deriving DecidableEq, Repr

/-- The error taxonomy raised by the translated code paths.
protocolError stands for WebSocketProtocolError, unicodeDecodeError
for UnicodeDecodeError raised by bytes.decode, connectionClosed for
ConnectionClosed (close code, close reason), notEstablished for the
bare Exception raised when the websocket connection is not yet
established, and wrongState for the Exception raised by write_frame
when the state differs from the expected one. -/
inductive WSErr where
  | protocolError
  | unicodeDecodeError
  | connectionClosed (code : Int) (reason : Option String)
  | notEstablished
  | wrongState
  | invalidHandshake
deriving DecidableEq, Repr

/-- A decoded inbound message: UTF-8 text or binary. -/
inductive Msg where
  | text (s : String)
  | binary (b : List Nat)
deriving DecidableEq, Repr

/-- Modelled from the spec: the inbound message queue (class AsyncQue
of futures.py, not among the analysed sources).  Per the spec,
receive yields queued decoded messages in FIFO order and, "once the
connection has terminated and the queue is drained", fails with the
stored terminal error. -/
structure MsgQueue where
  items : List Msg
  exc : Option WSErr
deriving DecidableEq, Repr

/-- Result of one receive call on the message queue: the next message,
the stored terminal error once drained, or pending (the caller would
suspend). -/
inductive ReceiveResult where
  | msg (m : Msg)
  | err (e : WSErr)
  | pending
deriving DecidableEq, Repr

/-- Modelled from the spec: one receive step.  A queued item is
yielded first; on an empty queue the stored exception, if any, is
raised; otherwise the caller suspends. -/
def MsgQueue.receive (q : MsgQueue) : ReceiveResult × MsgQueue :=
  match q.items with
  | m :: rest => (.msg m, { q with items := rest })
  | [] =>
    match q.exc with
    | some e => (.err e, q)
    | none => (.pending, q)

/-- The results of the first n receive calls, in order. -/
def receiveSeq (q : MsgQueue) : Nat → List ReceiveResult
  | 0 => []
  | n + 1 =>
    let r := q.receive
    r.1 :: receiveSeq r.2 n

/-- UTF-8 encoding of one Unicode scalar value (1 to 4 bytes),
mirroring str.encode of Python for a single code point. -/
def utf8EncodeScalar (c : Nat) : List Nat :=
  if c < 0x80 then [c]
  else if c < 0x800 then [0xC0 + c / 0x40, 0x80 + c % 0x40]
  else if c < 0x10000 then
    [0xE0 + c / 0x1000, 0x80 + c / 0x40 % 0x40, 0x80 + c % 0x40]
  else
    [0xF0 + c / 0x40000, 0x80 + c / 0x1000 % 0x40, 0x80 + c / 0x40 % 0x40,
      0x80 + c % 0x40]

/-- Python str.encode with encoding utf-8: every character of the
string encoded and concatenated. -/
def utf8Encode (s : String) : List Nat :=
  (s.data.map (fun ch => utf8EncodeScalar ch.toNat)).flatten

/-- Whether a byte is a UTF-8 continuation byte (10xxxxxx). -/
def utf8Cont (b : Nat) : Bool :=
  decide (0x80 ≤ b ∧ b < 0xC0)

/-- Strict UTF-8 decoding of a byte list into characters, mirroring
Python bytes.decode with encoding utf-8 and errors strict: rejects
continuation bytes in lead position, overlong encodings, surrogate
code points and values above U+10FFFF; returns none where Python
raises UnicodeDecodeError. -/
def utf8DecodeChars : List Nat → Option (List Char)
  | [] => some []
  | b0 :: rest =>
    if b0 < 0x80 then
      (utf8DecodeChars rest).map (fun cs => Char.ofNat b0 :: cs)
    else if b0 < 0xC2 then none
    else if b0 < 0xE0 then
      match rest with
      | b1 :: rest2 =>
        if utf8Cont b1 then
          (utf8DecodeChars rest2).map
            (fun cs => Char.ofNat ((b0 - 0xC0) * 0x40 + (b1 - 0x80)) :: cs)
        else none
      | [] => none
    else if b0 < 0xF0 then
      match rest with
      | b1 :: b2 :: rest3 =>
        if utf8Cont b1 ∧ utf8Cont b2 ∧ ¬(b0 = 0xE0 ∧ b1 < 0xA0) ∧
            ¬(b0 = 0xED ∧ 0xA0 ≤ b1) then
          (utf8DecodeChars rest3).map
            (fun cs =>
              Char.ofNat ((b0 - 0xE0) * 0x1000 + (b1 - 0x80) * 0x40 +
                (b2 - 0x80)) :: cs)
        else none
      | _ => none
    else if b0 < 0xF5 then
      match rest with
      | b1 :: b2 :: b3 :: rest4 =>
        if utf8Cont b1 ∧ utf8Cont b2 ∧ utf8Cont b3 ∧
            ¬(b0 = 0xF0 ∧ b1 < 0x90) ∧ ¬(b0 = 0xF4 ∧ 0x90 ≤ b1) then
          (utf8DecodeChars rest4).map
            (fun cs =>
              Char.ofNat ((b0 - 0xF0) * 0x40000 + (b1 - 0x80) * 0x1000 +
                (b2 - 0x80) * 0x40 + (b3 - 0x80)) :: cs)
        else none
      | _ => none
    else none

/-- Python bytes.decode with encoding utf-8 (strict). -/
def utf8Decode (l : List Nat) : Option String :=
  (utf8DecodeChars l).map (fun cs => String.mk cs)

/-- The observable state of one WebSocketCommonProtocol instance.
Fields mirror the attributes of websocket.py that the analysed
operations read or write:

* state, close_code, close_reason mirror the attributes of the same
  names (close_code is 0 until known);
* pings mirrors the OrderedDict pings as an insertion-ordered
  association list from ping token (payload bytes) to an identifier of
  the waiter future;
* resolved records, in order, the waiter identifiers on which
  set_result_if_pending was called (a resolved ping waiter);
* sent records, in order, the frames handed to write_websocket_frame;
* transfer_done mirrors transfer_data_task.done();
* lost_waiter_done mirrors connection_lost_waiter.done();
* transfer_data_exc and messages mirror the attributes of the same
  names;
* is_client mirrors the class attribute is_client.

The model specialises extensions to None (no negotiated extension),
so the per-frame extension encode and decode chains of write_frame and
read_data_frame are identity. -/
structure WSConn where
  state : WSState
  close_code : Int
  close_reason : Option String
  pings : List (List Nat × Nat)
  resolved : List Nat
  sent : List Frame
  transfer_done : Bool
  lost_waiter_done : Bool
  transfer_data_exc : Option WSErr
  messages : MsgQueue
  is_client : Bool
deriving DecidableEq, Repr

/-- The tokens (payload byte strings) of the pending pings, in FIFO
insertion order: the keys of the pings OrderedDict. -/
def pingTokens (conn : WSConn) : List (List Nat) :=
  conn.pings.map Prod.fst

/-- EXTERNAL_CLOSE_CODES of websocket.py:
(1000, 1001, 1002, 1003, 1007, 1008, 1009, 1010, 1011). -/
def EXTERNAL_CLOSE_CODES : List Int :=
  [1000, 1001, 1002, 1003, 1007, 1008, 1009, 1010, 1011]

/-- The close-code validity test used by both _serialize_close and
_process_CTRL_frame: code in EXTERNAL_CLOSE_CODES or 2999 < code < 5000. -/
def isValidCloseCode (code : Int) : Prop :=
  code ∈ EXTERNAL_CLOSE_CODES ∨ (2999 < code ∧ code < 5000)

instance (code : Int) : Decidable (isValidCloseCode code) := by
  unfold isValidCloseCode
  infer_instance

/-- Python int.to_bytes(2, big) for the close codes written on the
wire (all valid close codes fit two bytes). -/
def intToBytes2BE (code : Int) : List Nat :=
  [code.toNat / 256 % 256, code.toNat % 256]

/-- Python int.from_bytes(data[:2], big) where data has at least two
bytes. -/
def closeFrameCode (data : List Nat) : Int :=
  Int.ofNat (data.headD 0 * 256 + (data.drop 1).headD 0)

/-- WebSocketCommonProtocol._serialize_close: raises
WebSocketProtocolError unless the code is valid, else packs the
big-endian two-byte code followed by the UTF-8 encoded reason. -/
def serialize_close (code : Int) (reason : String) :
    Except WSErr (List Nat) :=
  if ¬ isValidCloseCode code then .error .protocolError
  else .ok (intToBytes2BE code ++ utf8Encode reason)

/-- WebSocketCommonProtocol.write_frame, specialised to no
extensions: asserts the state equals the expected one (else raises
the cannot-write Exception, modelled as wrongState) and appends one
final frame with the given opcode and data to the transport.  The
drain lock and the drain await are serialisation devices with no
effect on the written bytes and are elided. -/
def write_frame (conn : WSConn) (expected : WSState) (opcode : Nat)
    (data : List Nat) : Except WSErr WSConn :=
  if conn.state ≠ expected then .error .wrongState
  else .ok { conn with sent := conn.sent ++ [⟨true, opcode, data⟩] }

/-- WebSocketCommonProtocol.write_close_frame: only when the state is
still OPEN, moves to CLOSING and writes a final CLOSE frame carrying
data (the inner write_frame state assertion, expecting CLOSING, then
holds by construction). -/
def write_close_frame (conn : WSConn) (data : List Nat) : WSConn :=
  if conn.state = WSState.OPEN then
    { conn with state := WSState.CLOSING,
                sent := conn.sent ++ [⟨true, WS_OP_CLOSE, data⟩] }
  else conn

/-- WebSocketCommonProtocol.ensure_open: OPEN with the transfer task
still running passes; OPEN with the transfer task finished, CLOSING
and CLOSED raise ConnectionClosed carrying close_code and
close_reason; CONNECTING raises the bare not-yet-established
Exception.  The shielded awaits of close_connection_task inside the
method do not change which exception is raised and are elided. -/
def ensure_open (conn : WSConn) : Option WSErr :=
  match conn.state with
  | .OPEN =>
    if conn.transfer_done then
      some (.connectionClosed conn.close_code conn.close_reason)
    else none
  | .CLOSED => some (.connectionClosed conn.close_code conn.close_reason)
  | .CLOSING => some (.connectionClosed conn.close_code conn.close_reason)
  | .CONNECTING => some .notEstablished

/-- The payload accepted by WebSocketCommonProtocol.send: bytes-like
or str. -/
inductive SendPayload where
  | binary (b : List Nat)
  | text (s : String)
deriving DecidableEq, Repr

/-- WebSocketCommonProtocol.send: ensure_open first; then a bytes-like
payload selects opcode BINARY, a str payload is UTF-8 encoded and
selects opcode TEXT; one unfragmented frame is written via
write_frame with expected state OPEN.  Returns the updated connection
and the exception raised, if any. -/
def send (conn : WSConn) (payload : SendPayload) : WSConn × Option WSErr :=
  match ensure_open conn with
  | some e => (conn, some e)
  | none =>
    let p : Nat × List Nat :=
      match payload with
      | .binary b => (WS_OP_BINARY, b)
      | .text s => (WS_OP_TEXT, utf8Encode s)
    match write_frame conn .OPEN p.1 p.2 with
    | .ok c => (c, none)
    | .error e => (conn, some e)

/-- WebSocketCommonProtocol.fail_connection (the parts with
observable effect on the modelled state): when the code differs from
1006 and the state is still OPEN, serialize a close frame, move to
CLOSING and write it without draining.  The cancellation of
transfer_data_task and the creation of close_connection_task manage
tasks only and are elided.  Internal callers pass only valid codes,
so the serialize_close error branch is unreachable for them; the
model leaves the connection unchanged there. -/
def fail_connection (conn : WSConn) (code : Int) (reason : String) : WSConn :=
  if code ≠ 1006 ∧ conn.state = WSState.OPEN then
    match serialize_close code reason with
    | .ok msg =>
      { conn with state := WSState.CLOSING,
                  sent := conn.sent ++ [⟨true, WS_OP_CLOSE, msg⟩] }
    | .error _ => conn
  else conn

/-- WebSocketCommonProtocol.close, first phase: _serialize_close runs
before anything else, so an invalid code raises
WebSocketProtocolError before any write and before any state change;
a valid code reaches write_close_frame.  The subsequent bounded waits
(close timeout on the write task, on transfer_data_task, and the
shielded close_connection_task) only await task completion and are
elided. -/
def closeCall (conn : WSConn) (code : Int) (reason : String) :
    WSConn × Option WSErr :=
  match serialize_close code reason with
  | .error e => (conn, some e)
  | .ok msg => (write_close_frame conn msg, none)

/-- WebSocketCommonProtocol.connection_lost: the state becomes CLOSED;
close_code becomes 1006 only if it was still falsy (0); the
connection-lost waiter is resolved. -/
def connection_lost (conn : WSConn) : WSConn :=
  { conn with
      state := WSState.CLOSED,
      close_code := if conn.close_code = 0 then 1006 else conn.close_code,
      lost_waiter_done := true }

/-- The CLOSE branch of _process_CTRL_frame: a payload of two or more
bytes yields the big-endian code of the first two bytes, which must
be a valid close code (else WebSocketProtocolError) and whose
remainder is UTF-8 decoded into the reason (a decode failure raises
UnicodeDecodeError); close_code and close_reason are then recorded.
An empty payload records close_code 1005.  A one-byte payload raises
WebSocketProtocolError (close frame too short).  Finally the received
payload is echoed through write_close_frame and False is returned
(the boolean component), which makes read_data_frame return None:
the end-of-stream signal of the read loop. -/
def processCloseFrame (conn : WSConn) (data : List Nat) :
    Except WSErr (WSConn × Bool) :=
  if 2 ≤ data.length then
    let code := closeFrameCode data
    if ¬ isValidCloseCode code then .error .protocolError
    else
      match utf8Decode (data.drop 2) with
      | none => .error .unicodeDecodeError
      | some reason =>
        .ok (write_close_frame
          { conn with close_code := code, close_reason := some reason }
          data, false)
  else if data.length = 0 then
    .ok (write_close_frame { conn with close_code := 1005 } data, false)
  else .error .protocolError

/-- WebSocketCommonProtocol.pong specialised to a bytes payload (as
called from the PING branch with the received frame data):
ensure_open, then one final PONG frame via write_frame. -/
def pongSend (conn : WSConn) (data : List Nat) : Except WSErr WSConn :=
  match ensure_open conn with
  | some e => .error e
  | none => write_frame conn .OPEN WS_OP_PONG data

/-- The while loop of the PONG branch of _process_CTRL_frame,
translated literally: ping_id starts as the empty byte string; while
ping_id differs from the received payload, the oldest pings entry is
popped (OrderedDict popitem with last false, so FIFO) and its waiter
resolved.  Returns the remaining pings and the resolved waiter
identifiers in pop order.  Note the sentinel: when the received
payload is itself the empty byte string the loop body never runs.
Under the membership guard of processPongFrame the pings list is
never exhausted; the empty-list case is unreachable there. -/
def pongLoop (target pingId : List Nat) (pings : List (List Nat × Nat)) :
    List (List Nat × Nat) × List Nat :=
  if pingId = target then (pings, [])
  else
    match pings with
    | [] => ([], [])
    | (t, w) :: rest =>
      let r := pongLoop target t rest
      (r.1, w :: r.2)

/-- The PONG branch of _process_CTRL_frame: when the received payload
is a key of pings, pop and resolve FIFO entries up to the one whose
token compares equal to the payload; otherwise do nothing. -/
def processPongFrame (conn : WSConn) (data : List Nat) : WSConn :=
  if data ∈ pingTokens conn then
    let r := pongLoop data [] conn.pings
    { conn with pings := r.1, resolved := conn.resolved ++ r.2 }
  else conn

/-- WebSocketCommonProtocol._process_CTRL_frame: dispatch on the
opcode.  CLOSE is handled by processCloseFrame and returns False;
PING replies with a PONG carrying the same payload and returns True;
any other control opcode (PONG) runs the cumulative-acknowledgement
pop loop and returns True. -/
def processCtrlFrame (conn : WSConn) (f : Frame) :
    Except WSErr (WSConn × Bool) :=
  if f.opcode = WS_OP_CLOSE then
    processCloseFrame conn f.data
  else if f.opcode = WS_OP_PING then
    match pongSend conn f.data with
    | .ok c => .ok (c, true)
    | .error e => .error e
  else
    .ok (processPongFrame conn f.data, true)

/-- The distinct ways the read loop body of
WebSocketCommonProtocol.transfer_data can terminate, one per except
clause of the source plus the else clause: CancelledError;
WebSocketProtocolError; ConnectionError, EOFError or TimeoutError;
UnicodeDecodeError; PayloadError; any other BaseException; and the
graceful exit after read_message returned None for a received CLOSE
frame. -/
inductive ReadLoopEnd where
  | cancelled
  | protocolError
  | transportError
  | unicodeError
  | payloadError
  | otherError
  | closeReceived
deriving DecidableEq, Repr

/-- The ConnectionClosed exception each except or else clause of
transfer_data constructs: 1002, 1006, 1007, 1009 and 1011 with no
reason for the five error classes, and close_code-or-1000 with
close_reason for cancellation and for the graceful close exit. -/
def transferDataExc (conn : WSConn) (cause : ReadLoopEnd) : WSErr :=
  match cause with
  | .cancelled =>
    .connectionClosed (if conn.close_code = 0 then 1000 else conn.close_code)
      conn.close_reason
  | .protocolError => .connectionClosed 1002 none
  | .transportError => .connectionClosed 1006 none
  | .unicodeError => .connectionClosed 1007 none
  | .payloadError => .connectionClosed 1009 none
  | .otherError => .connectionClosed 1011 none
  | .closeReceived =>
    .connectionClosed (if conn.close_code = 0 then 1000 else conn.close_code)
      conn.close_reason

/-- The tail of WebSocketCommonProtocol.transfer_data: build the
terminal exception for the cause, call fail_connection with the
matching code in the five error classes (the cancellation branch
notes the connection was already failed; the graceful branch resolves
the connection-lost waiter on the client side), then, only when
transfer_data_exc is still unset, store the exception there and on
the message queue. -/
def transfer_data_end (conn : WSConn) (cause : ReadLoopEnd) : WSConn :=
  let exc := transferDataExc conn cause
  let conn2 :=
    match cause with
    | .cancelled => conn
    | .protocolError => fail_connection conn 1002 ""
    | .transportError => fail_connection conn 1006 ""
    | .unicodeError => fail_connection conn 1007 ""
    | .payloadError => fail_connection conn 1009 ""
    | .otherError => fail_connection conn 1011 ""
    | .closeReceived =>
      if conn.is_client then { conn with lost_waiter_done := true } else conn
  if conn2.transfer_data_exc = none then
    { conn2 with
        transfer_data_exc := some exc,
        messages := { conn2.messages with exc := some exc } }
  else conn2

/-- The payload argument accepted by WebSocketCommonProtocol.ping:
None, bytes-like, or str. -/
inductive PingData where
  | auto
  | bytes (b : List Nat)
  | str (s : String)
deriving DecidableEq, Repr

/-- The initial ping payload: None draws a fresh urandom(4) token
(the head of the modelled randomness stream), bytes pass through,
str is UTF-8 encoded.  Returns none when the modelled randomness is
exhausted. -/
def pingInitialPayload (data : PingData) (rand : List (List Nat)) :
    Option (List Nat × List (List Nat)) :=
  match data with
  | .auto =>
    match rand with
    | r :: rest => some (r, rest)
    | [] => none
  | .bytes b => some (b, rand)
  | .str s => some (utf8Encode s, rand)

/-- The collision loop of ping: while the candidate payload is a key
of pings, replace it with the next urandom(4) draw.  The draws list
models the successive urandom outputs; none means the modelled draws
ran out while every one collided. -/
def reroll (keys : List (List Nat)) :
    List (List Nat) → List Nat → Option (List Nat)
  | draws, data =>
    if data ∈ keys then
      match draws with
      | [] => none
      | d :: rest => reroll keys rest d
    else some data

/-- WebSocketCommonProtocol.ping: ensure_open; choose the initial
payload; re-roll it while it collides with a pending token; register
the waiter under the final token at the end of the pings OrderedDict;
write one final PING frame carrying that token.  The terminal await
of the waiter suspends only and is elided.  The outer Option is none
when the modelled randomness stream is exhausted. -/
def pingCall (conn : WSConn) (data : PingData) (rand : List (List Nat))
    (w : Nat) : Except WSErr (Option WSConn) :=
  match ensure_open conn with
  | some e => .error e
  | none =>
    match pingInitialPayload data rand with
    | none => .ok none
    | some (init, rand2) =>
      match reroll (pingTokens conn) rand2 init with
      | none => .ok none
      | some tok =>
        .ok (some { conn with
          pings := conn.pings ++ [(tok, w)],
          sent := conn.sent ++ [⟨true, WS_OP_PING, tok⟩] })

/-- Outcome of the client handshake response validation inside
WSClient.__new__: opened means every check passed and the run reaches
connection_open (state OPEN); invalidHandshake is the InvalidHandshake
exception; indexError is the IndexError raised by evaluating the
subscript upgrade[0] on an empty list. -/
inductive ClientHSOutcome where
  | opened
  | invalidHandshake
  | indexError
deriving DecidableEq, Repr

/-- ASCII lower-casing of one character, the fragment of Python
str.lower relevant to the header tokens compared here (websocket,
upgrade), which are ASCII. -/
def charLower (c : Char) : Char :=
  if 65 ≤ c.toNat ∧ c.toNat ≤ 90 then Char.ofNat (c.toNat + 32) else c

/-- ASCII lower-casing of a header token (Python str.lower on the
ASCII tokens compared by the handshake). -/
def strLower (s : String) : String :=
  String.mk (s.data.map charLower)

/-- The response validation sequence of WSClient.__new__ (after the
HTTP exchange), taking the already parsed header token lists as
inputs: connections and upgrade are the accumulated parse_connections
and parse_upgrades results, expected_key is the locally computed
base64 SHA-1 accept value (the hash itself is computed by the hashlib
and base64 collaborators and enters the model as this parameter),
received_keys is getall of Sec-WebSocket-Accept (none when absent).

The checks run in source order: status must be 101; some connection
token must lower-case to upgrade; then the condition
(len(upgrade) != 1 and upgrade[0].lower() != websocket) raises
InvalidHandshake, where Python evaluates the conjuncts left to right,
so a single-element list short-circuits past the value comparison and
an empty list raises IndexError at the subscript; then the accept
key must be present, unique and equal to the expectation.  The
extension and subprotocol response checks that follow in the source
are skipped by responses carrying neither header, the situation this
model covers, after which the transport is detached and
connection_open runs. -/
def wsclient_validate (status : Nat) (connections upgrade : List String)
    (expected_key : String) (received_keys : Option (List String)) :
    ClientHSOutcome :=
  if status ≠ 101 then .invalidHandshake
  else if ¬ connections.any (fun v => strLower v = "upgrade") then
    .invalidHandshake
  else
    match upgrade with
    | [] => .indexError
    | u :: _ =>
      if upgrade.length ≠ 1 ∧ strLower u ≠ "websocket" then .invalidHandshake
      else
        match received_keys with
        | none => .invalidHandshake
        | some keys =>
          if 1 < keys.length then .invalidHandshake
          else if keys.headD "" ≠ expected_key then .invalidHandshake
          else .opened

/-- A locally available server extension as WSServerProtocol.handshake
uses it: a name and the are_valid_params test, which receives the
offered parameters and the names of the previously accepted
extensions. -/
structure ServerExtension where
  name : String
  are_valid_params : List (String × String) → List String → Bool

/-- The inner for loop of the extension negotiation: the first
available extension whose name equals the offered name and whose
are_valid_params accepts the offered params given the already
accepted extensions. -/
def find_matching_extension (name : String) (params : List (String × String))
    (acceptedNames : List String) :
    List ServerExtension → Option ServerExtension
  | [] => none
  | e :: rest =>
    if e.name = name ∧ e.are_valid_params params acceptedNames then some e
    else find_matching_extension name params acceptedNames rest

/-- The extension negotiation loop of WSServerProtocol.handshake over
the parsed client offers, in client-offer order: a matching available
extension is appended to the accepted list and its (name, params)
pair to the response header list; the for-else clause raises
InvalidHandshake when no available extension matched the offer.
Returns the accepted extensions and the response header pairs. -/
def negotiate_extensions (available : List ServerExtension) :
    List (String × List (String × String)) → List ServerExtension →
    List (String × List (String × String)) →
    Except WSErr (List ServerExtension × List (String × List (String × String)))
  | [], accepted, headers => .ok (accepted, headers)
  | (name, params) :: rest, accepted, headers =>
    match find_matching_extension name params
        (accepted.map ServerExtension.name) available with
    | some e =>
      negotiate_extensions available rest (accepted ++ [e])
        (headers ++ [(name, params)])
    | none => .error .invalidHandshake

/-- The steps WSServer._close performs, in order, once the server
handle exists: close the listening server (stop accepting), await
wait_closed, skip one full loop iteration, then issue one concurrent
batch (WaitTillAll) of close calls carrying (connection, code,
reason), then one concurrent batch awaiting the handler tasks. -/
inductive ServerCloseStep where
  | stopServer
  | waitClosed
  | skipLoop
  | closeAll (calls : List (Nat × Int × String))
  | awaitHandlers (ids : List Nat)
deriving DecidableEq, Repr

/-- WSServer._close with a live server handle, over the identifiers
of the registered websockets: stop accepting, wait for the listener
to close, skip one loop iteration, then, when any websockets are
registered, one WaitTillAll batch of websocket.close(1001) calls (the
reason argument keeps its default, the empty string) followed by one
WaitTillAll batch awaiting their handler tasks. -/
def WSServer_close (websockets : List Nat) : List ServerCloseStep :=
  [ServerCloseStep.stopServer, ServerCloseStep.waitClosed,
    ServerCloseStep.skipLoop] ++
  (if websockets ≠ [] then
    [ServerCloseStep.closeAll (websockets.map (fun w => (w, 1001, "")))]
  else []) ++
  (if websockets ≠ [] then [ServerCloseStep.awaitHandlers websockets]
  else [])

/-- The close-code classification exactly as the specification words
it: protocol error to 1002, connection, EOF or timeout errors to
1006, UTF-8 decode error to 1007, oversize payload to 1009, any other
unexpected exception to 1011, and graceful close-frame termination to
the negotiated close code or 1000; cancellation of the read loop
(the already-failed-connection path) takes the negotiated code or
1000 as well. -/
def specTransferCloseCode (cause : ReadLoopEnd) (close_code : Int) : Int :=
  match cause with
  | .protocolError => 1002
  | .transportError => 1006
  | .unicodeError => 1007
  | .payloadError => 1009
  | .otherError => 1011
  | .closeReceived => if close_code = 0 then 1000 else close_code
  | .cancelled => if close_code = 0 then 1000 else close_code

/-- A freshly opened connection with empty bookkeeping, the base of
the concrete examples below. -/
def connBase : WSConn :=
  { state := WSState.OPEN, close_code := 0, close_reason := none,
    pings := [], resolved := [], sent := [], transfer_done := false,
    lost_waiter_done := false, transfer_data_exc := none,
    messages := ⟨[], none⟩, is_client := true }

theorem fail_connection_preserves (conn : WSConn) (code : Int)
    (reason : String) :
    (fail_connection conn code reason).transfer_data_exc =
      conn.transfer_data_exc ∧
    (fail_connection conn code reason).messages = conn.messages ∧
    (fail_connection conn code reason).close_code = conn.close_code ∧
    (fail_connection conn code reason).close_reason = conn.close_reason ∧
    (fail_connection conn code reason).is_client = conn.is_client ∧
    (conn.state ≠ WSState.OPEN → fail_connection conn code reason = conn) := by
  unfold fail_connection
  split
  · rename_i hcond
    split
    · exact ⟨rfl, rfl, rfl, rfl, rfl, fun hne => absurd hcond.2 hne⟩
    · exact ⟨rfl, rfl, rfl, rfl, rfl, fun _ => rfl⟩
  · exact ⟨rfl, rfl, rfl, rfl, rfl, fun _ => rfl⟩

theorem write_close_frame_of_not_open (conn : WSConn) (data : List Nat)
    (h : conn.state ≠ WSState.OPEN) : write_close_frame conn data = conn := by
  simp [write_close_frame, h]

theorem receiveSeq_closed (items : List Msg) (e : WSErr) (n : Nat) :
    receiveSeq ⟨items, some e⟩ n =
      (items.map ReceiveResult.msg ++
        List.replicate (n - items.length) (ReceiveResult.err e)).take n := by
  induction n generalizing items with
  | zero => simp [receiveSeq]
  | succ n ih =>
    cases items with
    | nil =>
      simp [receiveSeq, MsgQueue.receive, ih, List.replicate_succ]
    | cons m rest =>
      simp [receiveSeq, MsgQueue.receive, ih, Nat.succ_sub_succ]

theorem reroll_not_mem (keys : List (List Nat)) (draws : List (List Nat))
    (data t : List Nat) (h : reroll keys draws data = some t) : t ∉ keys := by
  induction draws generalizing data with
  | nil =>
    unfold reroll at h
    by_cases hm : data ∈ keys
    · simp [hm] at h
    · simp [hm] at h
      subst h
      exact hm
  | cons d rest ih =>
    unfold reroll at h
    by_cases hm : data ∈ keys
    · simp [hm] at h
      exact ih d h
    · simp [hm] at h
      subst h
      exact hm

theorem reroll_mem_draws (keys draws : List (List Nat)) (data t : List Nat)
    (hm : data ∈ keys) (h : reroll keys draws data = some t) : t ∈ draws := by
  induction draws generalizing data with
  | nil =>
    unfold reroll at h
    simp [hm] at h
  | cons d rest ih =>
    unfold reroll at h
    simp [hm] at h
    by_cases hd : d ∈ keys
    · exact List.mem_cons_of_mem _ (ih d hd h)
    · unfold reroll at h
      simp [hd] at h
      subst h
      exact List.mem_cons_self _ _

theorem transfer_data_end_split (conn : WSConn) (cause : ReadLoopEnd)
    (h : conn.transfer_data_exc = none) :
    (transfer_data_end conn cause).transfer_data_exc =
      some (transferDataExc conn cause) ∧
    (transfer_data_end conn cause).messages =
      ⟨conn.messages.items, some (transferDataExc conn cause)⟩ := by
  cases cause
  case cancelled => simp [transfer_data_end, h]
  case protocolError =>
    have hp := fail_connection_preserves conn 1002 ""
    simp [transfer_data_end, hp.1, hp.2.1, h]
  case transportError =>
    have hp := fail_connection_preserves conn 1006 ""
    simp [transfer_data_end, hp.1, hp.2.1, h]
  case unicodeError =>
    have hp := fail_connection_preserves conn 1007 ""
    simp [transfer_data_end, hp.1, hp.2.1, h]
  case payloadError =>
    have hp := fail_connection_preserves conn 1009 ""
    simp [transfer_data_end, hp.1, hp.2.1, h]
  case otherError =>
    have hp := fail_connection_preserves conn 1011 ""
    simp [transfer_data_end, hp.1, hp.2.1, h]
  case closeReceived =>
    by_cases hc : conn.is_client <;> simp [transfer_data_end, hc, h]

/-- A connection with one pending ping registered under the empty
token, the state reached by calling ping with payload b'' (or the
empty str) while no other ping was pending; waiter identifier 7. -/
def connEmptyPing : WSConn :=
  { connBase with pings := [([], 7)] }

/-- C1: the claim states that a received PONG whose payload equals
the token of some pending ping waiter pops and resolves all waiters
up to and including the matching one.  The code initialises the pop
loop with the sentinel ping_id equal to the empty byte string, so a
PONG carrying the empty payload, even though it matches the pending
empty token (the membership guard is taken), runs the loop body zero
times: the pings dictionary is left untouched and no waiter is
resolved.  This theorem evaluates the translated control-frame
handler at that failing input. -/
theorem C1_pong_empty_token_resolves_nothing :
    processCtrlFrame connEmptyPing ⟨true, WS_OP_PONG, []⟩ =
      .ok (connEmptyPing, true) ∧
    ([] : List Nat) ∈ pingTokens connEmptyPing ∧
    connEmptyPing.pings = [([], 7)] ∧
    connEmptyPing.resolved = [] := by
  exact ⟨rfl, by decide, rfl, rfl⟩

/-- C2: the claim states that a 101 response whose Upgrade header is
missing, repeated, or carries a single value other than websocket
fails the client handshake with InvalidHandshake.  The source tests
(len(upgrade) != 1 and upgrade[0].lower() != 'websocket') where the
conjunction should be a disjunction: a single Upgrade value
different from websocket short-circuits past the comparison, every
later check passes, and the run reaches connection_open (state
OPEN); a missing Upgrade header raises IndexError at the subscript,
not InvalidHandshake.  This theorem evaluates the translated
validation at both failing inputs (the accept key is correct in
both). -/
theorem C2_single_wrong_upgrade_value_opens :
    wsclient_validate 101 ["Upgrade"] ["foo"] "K" (some ["K"]) =
      ClientHSOutcome.opened ∧
    wsclient_validate 101 ["Upgrade"] [] "K" (some ["K"]) =
      ClientHSOutcome.indexError := by
  exact ⟨by decide, by decide⟩

/-- A locally available extension accepting any parameters, standing
for permessage-deflate. -/
def extDeflate : ServerExtension :=
  { name := "permessage-deflate", are_valid_params := fun _ _ => true }

/-- C3: the claim (and the comment inside the source loop) states
that a client extension offer matched by no locally available
extension is silently declined.  The for-else clause of the source
instead raises InvalidHandshake, failing the whole handshake with a
400 response.  This theorem evaluates the translated negotiation
loop at the failing input: one available extension, one offer with a
name it does not carry. -/
theorem C3_unmatched_offer_fails_handshake :
    negotiate_extensions [extDeflate] [("unknown-ext", [])] [] [] =
      .error WSErr.invalidHandshake := by
  rfl

/-- C5: close with a code outside the valid set fails with
WebSocketProtocolError before anything is sent and before any state
change: _serialize_close runs first in close, so the call returns
the protocol error with the connection record untouched, in
particular with no frame written and close_code and close_reason
unchanged. -/
theorem C5_close_invalid_code_rejected_before_write (conn : WSConn)
    (code : Int) (reason : String)
    (h1 : code ∉ EXTERNAL_CLOSE_CODES)
    (h2 : ¬ (3000 ≤ code ∧ code < 5000)) :
    closeCall conn code reason = (conn, some WSErr.protocolError) ∧
    (closeCall conn code reason).1.sent = conn.sent ∧
    (closeCall conn code reason).1.state = conn.state ∧
    (closeCall conn code reason).1.close_code = conn.close_code ∧
    (closeCall conn code reason).1.close_reason = conn.close_reason := by
  have hv : ¬ isValidCloseCode code := by
    unfold isValidCloseCode
    rintro (hmem | ⟨hlt, hup⟩)
    · exact h1 hmem
    · exact h2 ⟨by omega, hup⟩
  have hc : closeCall conn code reason = (conn, some WSErr.protocolError) := by
    simp [closeCall, serialize_close, hv]
  exact ⟨hc, by rw [hc], by rw [hc], by rw [hc], by rw [hc]⟩

/-- Witness for C5 at the concrete invalid code 1004 (inside the
1000 to 1011 band but absent from EXTERNAL_CLOSE_CODES and outside
3000 to 4999). -/
theorem C5_close_invalid_code_rejected_before_write_witness :
    (1004 : Int) ∉ EXTERNAL_CLOSE_CODES ∧
    ¬ ((3000 : Int) ≤ 1004 ∧ (1004 : Int) < 5000) ∧
    closeCall connBase 1004 "" = (connBase, some WSErr.protocolError) :=
  ⟨by decide, by decide,
    (C5_close_invalid_code_rejected_before_write connBase 1004 ""
      (by decide) (by decide)).1⟩

/-- C4: whenever the read loop terminates, the cause is classified
into exactly one close code (protocol error 1002, connection, EOF or
timeout 1006, UTF-8 decode error 1007, oversize payload 1009, any
other unexpected exception 1011, graceful close-frame termination
and the already-failed cancellation path the negotiated code or
1000), one ConnectionClosed exception carrying that code is stored
as the connection's final error and on the message queue, and every
pending and subsequent receive observes it once the queued messages
are drained: the first n receive results are exactly the queued
messages followed by that error, for every n. -/
theorem C4_read_loop_termination_classification (conn : WSConn)
    (cause : ReadLoopEnd) (n : Nat) (h : conn.transfer_data_exc = none) :
    (transfer_data_end conn cause).transfer_data_exc =
      some (transferDataExc conn cause) ∧
    (transfer_data_end conn cause).messages.exc =
      some (transferDataExc conn cause) ∧
    (transfer_data_end conn cause).messages.items = conn.messages.items ∧
    (∃ reason, transferDataExc conn cause =
      WSErr.connectionClosed (specTransferCloseCode cause conn.close_code)
        reason) ∧
    receiveSeq (transfer_data_end conn cause).messages n =
      (conn.messages.items.map ReceiveResult.msg ++
        List.replicate (n - conn.messages.items.length)
          (ReceiveResult.err (transferDataExc conn cause))).take n := by
  obtain ⟨h1, h2⟩ := transfer_data_end_split conn cause h
  refine ⟨h1, by rw [h2], by rw [h2], ?_, ?_⟩
  · cases cause <;> exact ⟨_, rfl⟩
  · rw [h2, receiveSeq_closed]

/-- A connection with one undelivered queued message. -/
def connQueueEx : WSConn :=
  { connBase with messages := ⟨[Msg.binary [1]], none⟩ }

/-- Witness for C4: a protocol-error termination on a connection
holding one queued message yields that message and then the stored
ConnectionClosed with code 1002 on every later receive. -/
theorem C4_read_loop_termination_classification_witness :
    connQueueEx.transfer_data_exc = none ∧
    (transfer_data_end connQueueEx ReadLoopEnd.protocolError).transfer_data_exc
      = some (transferDataExc connQueueEx ReadLoopEnd.protocolError) ∧
    receiveSeq
        (transfer_data_end connQueueEx ReadLoopEnd.protocolError).messages 3 =
      [ReceiveResult.msg (Msg.binary [1]),
        ReceiveResult.err (WSErr.connectionClosed 1002 none),
        ReceiveResult.err (WSErr.connectionClosed 1002 none)] := by
  have h := C4_read_loop_termination_classification connQueueEx
    ReadLoopEnd.protocolError 3 rfl
  refine ⟨rfl, h.1, ?_⟩
  rw [h.2.2.2.2]
  decide

/-- C6: processing of a received CLOSE frame.  An empty payload
records close code 1005; a one-byte payload is a protocol error; a
payload of two or more bytes whose big-endian leading code is
invalid is a protocol error, and otherwise the code and the UTF-8
decoded remainder are recorded as close_code and close_reason; the
received payload is echoed back through write_close_frame, which
sends only when this side had not already sent a close frame (state
still OPEN, moving it to CLOSING) and otherwise changes nothing; the
boolean false component is the end-of-stream signal to the read
loop. -/
theorem C6_close_frame_handling (conn : WSConn) (data : List Nat)
    (reason : String) :
    (data.length = 0 →
      processCloseFrame conn data =
        .ok (write_close_frame { conn with close_code := 1005 } data, false)) ∧
    (data.length = 1 →
      processCloseFrame conn data = .error WSErr.protocolError) ∧
    (2 ≤ data.length → ¬ isValidCloseCode (closeFrameCode data) →
      processCloseFrame conn data = .error WSErr.protocolError) ∧
    (2 ≤ data.length → isValidCloseCode (closeFrameCode data) →
      utf8Decode (data.drop 2) = some reason →
      processCloseFrame conn data =
        .ok (write_close_frame
          { conn with close_code := closeFrameCode data,
                      close_reason := some reason } data, false)) ∧
    (conn.state = WSState.OPEN →
      (write_close_frame conn data).state = WSState.CLOSING ∧
      (write_close_frame conn data).sent =
        conn.sent ++ [⟨true, WS_OP_CLOSE, data⟩]) ∧
    (conn.state ≠ WSState.OPEN → write_close_frame conn data = conn) := by
  refine ⟨?_, ?_, ?_, ?_, ?_, ?_⟩
  · intro h0
    have hn2 : ¬ 2 ≤ data.length := by omega
    simp [processCloseFrame, hn2, h0]
  · intro h1
    have hn2 : ¬ 2 ≤ data.length := by omega
    have hn0 : ¬ data.length = 0 := by omega
    simp [processCloseFrame, hn2, hn0]
  · intro h2 hv
    simp [processCloseFrame, h2, hv]
  · intro h2 hv hd
    simp [processCloseFrame, h2, hv, hd]
  · intro hopen
    simp [write_close_frame, hopen]
  · intro hnopen
    simp [write_close_frame, hnopen]

/-- Witness for C6: the two-byte payload 0x03 0xE8 (code 1000, empty
reason) on a freshly opened connection records code 1000 and echoes
the payload. -/
theorem C6_close_frame_handling_witness :
    2 ≤ ([3, 232] : List Nat).length ∧
    isValidCloseCode (closeFrameCode [3, 232]) ∧
    utf8Decode (([3, 232] : List Nat).drop 2) = some "" ∧
    processCloseFrame connBase [3, 232] =
      .ok (write_close_frame
        { connBase with close_code := closeFrameCode [3, 232],
                        close_reason := some "" } [3, 232], false) :=
  ⟨by decide, by decide, rfl,
    (C6_close_frame_handling connBase [3, 232] "").2.2.2.1 (by decide)
      (by decide) rfl⟩

/-- A connection still in the CONNECTING state. -/
def connConnectingEx : WSConn :=
  { connBase with state := WSState.CONNECTING }

/-- Counterexample to C7 as stated: on a CONNECTING connection (a
state that is not OPEN) send fails with the bare
connection-not-yet-established Exception, not with ConnectionClosed
carrying the close code and reason. -/
theorem C7_send_connecting_not_closed_error :
    send connConnectingEx (SendPayload.binary [1]) =
      (connConnectingEx, some WSErr.notEstablished) ∧
    some WSErr.notEstablished ≠
      some (WSErr.connectionClosed connConnectingEx.close_code
        connConnectingEx.close_reason) := by
  exact ⟨by decide, by decide⟩

/-- C7 as amended: send on a CLOSING or CLOSED connection, or on an
OPEN connection whose read task has already finished, fails with
ConnectionClosed carrying close_code and close_reason and writes
nothing; on a CONNECTING connection it fails with the generic
not-yet-established error and writes nothing; on an OPEN connection
with the read task still running, a str payload goes out as one
unfragmented TEXT frame carrying its UTF-8 encoding and a bytes-like
payload as one unfragmented BINARY frame. -/
theorem C7_send_state_dispatch (conn : WSConn) (payload : SendPayload) :
    ((conn.state = WSState.CLOSING ∨ conn.state = WSState.CLOSED ∨
        (conn.state = WSState.OPEN ∧ conn.transfer_done = true)) →
      send conn payload =
        (conn,
          some (WSErr.connectionClosed conn.close_code conn.close_reason))) ∧
    (conn.state = WSState.CONNECTING →
      send conn payload = (conn, some WSErr.notEstablished)) ∧
    (conn.state = WSState.OPEN → conn.transfer_done = false →
      (send conn payload).2 = none ∧
      (send conn payload).1.state = conn.state ∧
      (send conn payload).1.sent = conn.sent ++
        [match payload with
          | .binary b => ⟨true, WS_OP_BINARY, b⟩
          | .text s => ⟨true, WS_OP_TEXT, utf8Encode s⟩]) := by
  refine ⟨?_, ?_, ?_⟩
  · rintro (h | h | ⟨h, hd⟩)
    · simp [send, ensure_open, h]
    · simp [send, ensure_open, h]
    · simp [send, ensure_open, h, hd]
  · intro h
    simp [send, ensure_open, h]
  · intro h hd
    cases payload <;> simp [send, ensure_open, write_frame, h, hd]

/-- Witness for C7 as amended: on a freshly opened connection the
text payload a goes out as one TEXT frame with bytes 0x61. -/
theorem C7_send_state_dispatch_witness :
    connBase.state = WSState.OPEN ∧ connBase.transfer_done = false ∧
    (send connBase (SendPayload.text "a")).2 = none ∧
    (send connBase (SendPayload.text "a")).1.sent =
      [⟨true, WS_OP_TEXT, [97]⟩] := by
  have h := (C7_send_state_dispatch connBase (SendPayload.text "a")).2.2 rfl rfl
  refine ⟨rfl, rfl, h.1, ?_⟩
  rw [h.2.2]
  decide

/-- Counterexample to C8 as stated: shutting down a registry holding
one live connection issues close with code 1001 and the empty-string
reason (the default of the close signature), not the reason
"going away". -/
theorem C8_shutdown_reason_empty :
    WSServer_close [1] =
      [ServerCloseStep.stopServer, ServerCloseStep.waitClosed,
        ServerCloseStep.skipLoop,
        ServerCloseStep.closeAll [(1, 1001, "")],
        ServerCloseStep.awaitHandlers [1]] ∧
    ("" : String) ≠ "going away" := by
  exact ⟨by decide, by decide⟩

/-- C8 as amended: registry shutdown first stops accepting new
transport connections and waits for the listener to close, then
issues close with code 1001 and the empty reason to every live
registered connection in a single concurrent WaitTillAll batch (not
sequentially), and then awaits all of their handler tasks in a
second concurrent batch before returning. -/
theorem C8_shutdown_sequence (ws : List Nat) (h : ws ≠ []) :
    ∃ calls : List (Nat × Int × String),
      WSServer_close ws =
        [ServerCloseStep.stopServer, ServerCloseStep.waitClosed,
          ServerCloseStep.skipLoop, ServerCloseStep.closeAll calls,
          ServerCloseStep.awaitHandlers ws] ∧
      calls.map (fun c => c.1) = ws ∧
      ∀ c ∈ calls, c.2.1 = 1001 ∧ c.2.2 = "" := by
  refine ⟨ws.map (fun w => (w, 1001, "")), ?_, ?_, ?_⟩
  · simp [WSServer_close, h]
  · simp only [List.map_map]
    exact List.map_id ws
  · intro c hc
    simp only [List.mem_map] at hc
    obtain ⟨w, hw, hcw⟩ := hc
    subst hcw
    exact ⟨rfl, rfl⟩

/-- Witness for C8 as amended at a two-connection registry. -/
theorem C8_shutdown_sequence_witness :
    ([1, 2] : List Nat) ≠ [] ∧
    (∃ calls : List (Nat × Int × String),
      WSServer_close [1, 2] =
        [ServerCloseStep.stopServer, ServerCloseStep.waitClosed,
          ServerCloseStep.skipLoop, ServerCloseStep.closeAll calls,
          ServerCloseStep.awaitHandlers [1, 2]] ∧
      calls.map (fun c => c.1) = [1, 2] ∧
      ∀ c ∈ calls, c.2.1 = 1001 ∧ c.2.2 = "") :=
  ⟨by decide, C8_shutdown_sequence [1, 2] (by decide)⟩

/-- C9: connection_lost sets the state to CLOSED, sets close_code to
1006 exactly when it was still 0 (a previously recorded close code
is never overwritten), and resolves the connection-lost waiter; and
no later operation moves the state away from CLOSED: on a CLOSED
connection, write_close_frame, fail_connection, send, close, the
read-loop terminal disposition, a further connection_lost, and any
successful control-frame processing all leave the state CLOSED. -/
theorem C9_connection_lost_terminal (conn c2 : WSConn) (code : Int)
    (reason : String) (data : List Nat) (payload : SendPayload)
    (cause : ReadLoopEnd) (f : Frame) (r : WSConn × Bool)
    (hclosed : c2.state = WSState.CLOSED)
    (hf : processCtrlFrame c2 f = .ok r) :
    (connection_lost conn).state = WSState.CLOSED ∧
    (connection_lost conn).close_code =
      (if conn.close_code = 0 then 1006 else conn.close_code) ∧
    (connection_lost conn).lost_waiter_done = true ∧
    (write_close_frame c2 data).state = WSState.CLOSED ∧
    (fail_connection c2 code reason).state = WSState.CLOSED ∧
    (send c2 payload).1.state = WSState.CLOSED ∧
    (closeCall c2 code reason).1.state = WSState.CLOSED ∧
    (transfer_data_end c2 cause).state = WSState.CLOSED ∧
    (connection_lost c2).state = WSState.CLOSED ∧
    r.1.state = WSState.CLOSED := by
  have hno : c2.state ≠ WSState.OPEN := by
    rw [hclosed]
    intro hx
    cases hx
  have hwcf : ∀ d, write_close_frame c2 d = c2 := fun d =>
    write_close_frame_of_not_open c2 d hno
  have hfc : ∀ cd rs, fail_connection c2 cd rs = c2 := fun cd rs =>
    (fail_connection_preserves c2 cd rs).2.2.2.2.2 hno
  have htde : (transfer_data_end c2 cause).state = WSState.CLOSED := by
    cases cause <;>
      simp only [transfer_data_end, hfc] <;>
      (repeat' split) <;> simp [hclosed]
  have hr : r.1.state = WSState.CLOSED := by
    by_cases h8 : f.opcode = WS_OP_CLOSE
    · simp only [processCtrlFrame, h8, if_pos] at hf
      by_cases hlen2 : 2 ≤ f.data.length
      · by_cases hv : isValidCloseCode (closeFrameCode f.data)
        · cases hdec : utf8Decode (f.data.drop 2) with
          | none => simp [processCloseFrame, hlen2, hv, hdec] at hf
          | some rs =>
            have hpc : processCloseFrame c2 f.data =
                .ok (write_close_frame
                  { c2 with close_code := closeFrameCode f.data,
                            close_reason := some rs } f.data, false) := by
              simp [processCloseFrame, hlen2, hv, hdec]
            rw [hpc] at hf
            simp only [Except.ok.injEq] at hf
            rw [← hf]
            simp [write_close_frame, hclosed]
        · simp [processCloseFrame, hlen2, hv] at hf
      · by_cases h0 : f.data.length = 0
        · have hpc : processCloseFrame c2 f.data =
              .ok (write_close_frame { c2 with close_code := 1005 }
                f.data, false) := by
            simp [processCloseFrame, hlen2, h0]
          rw [hpc] at hf
          simp only [Except.ok.injEq] at hf
          rw [← hf]
          simp [write_close_frame, hclosed]
        · simp [processCloseFrame, hlen2, h0] at hf
    · by_cases h9 : f.opcode = WS_OP_PING
      · simp [processCtrlFrame, WS_OP_CLOSE, WS_OP_PING, h8, h9, pongSend,
          ensure_open, hclosed] at hf
      · simp only [processCtrlFrame, h8, if_false, h9,
          Except.ok.injEq] at hf
        rw [← hf]
        simp only [processPongFrame]
        split <;> simp [hclosed]
  refine ⟨rfl, rfl, rfl, ?_, ?_, ?_, ?_, htde, rfl, hr⟩
  · rw [hwcf]
    exact hclosed
  · rw [hfc]
    exact hclosed
  · simp [send, ensure_open, hclosed]
  · simp only [closeCall]
    split
    · exact hclosed
    · simp [hwcf, hclosed]

/-- A connection whose transport already closed: state CLOSED with
recorded close code 1000 and finished read task. -/
def connClosedEx : WSConn :=
  { connBase with
      state := WSState.CLOSED, close_code := 1000, transfer_done := true }

/-- Witness for C9 at a CLOSED connection with code 1000 and at a
PONG control frame processed on it. -/
theorem C9_connection_lost_terminal_witness :
    connClosedEx.state = WSState.CLOSED ∧
    processCtrlFrame connClosedEx ⟨true, WS_OP_PONG, []⟩ =
      .ok (connClosedEx, true) ∧
    (connection_lost connBase).close_code = 1006 ∧
    (send connClosedEx (SendPayload.binary [])).1.state = WSState.CLOSED := by
  have h := C9_connection_lost_terminal connBase connClosedEx 1000 "" []
    (SendPayload.binary []) ReadLoopEnd.cancelled ⟨true, WS_OP_PONG, []⟩
    (connClosedEx, true) rfl rfl
  refine ⟨rfl, rfl, ?_, h.2.2.2.2.2.1⟩
  rw [h.2.1]
  decide

/-- C10: when the payload supplied to ping (or the generated one)
equals a token already awaiting a pong, the payload actually sent is
replaced by a fresh draw of the urandom(4) stream, re-rolled until
it collides with no pending token, and the waiter is registered
under the substituted token, which the PING frame carries. -/
theorem C10_ping_collision_substitution (conn : WSConn) (b : List Nat)
    (rand : List (List Nat)) (w : Nat) (conn2 : WSConn)
    (hopen : conn.state = WSState.OPEN) (hdone : conn.transfer_done = false)
    (hcoll : b ∈ pingTokens conn) (hlen : ∀ d ∈ rand, d.length = 4)
    (h : pingCall conn (PingData.bytes b) rand w = .ok (some conn2)) :
    ∃ tok, tok ∈ rand ∧ tok ∉ pingTokens conn ∧ tok ≠ b ∧ tok.length = 4 ∧
      conn2.pings = conn.pings ++ [(tok, w)] ∧
      conn2.sent = conn.sent ++ [⟨true, WS_OP_PING, tok⟩] := by
  cases hr : reroll (pingTokens conn) rand b with
  | none =>
    have hpc : pingCall conn (PingData.bytes b) rand w = .ok none := by
      simp [pingCall, ensure_open, hopen, hdone, pingInitialPayload, hr]
    rw [hpc] at h
    simp at h
  | some tok =>
    have hpc : pingCall conn (PingData.bytes b) rand w =
        .ok (some { conn with
          pings := conn.pings ++ [(tok, w)],
          sent := conn.sent ++ [⟨true, WS_OP_PING, tok⟩] }) := by
      simp [pingCall, ensure_open, hopen, hdone, pingInitialPayload, hr]
    rw [hpc] at h
    simp only [Except.ok.injEq, Option.some.injEq] at h
    have hne : tok ∉ pingTokens conn := reroll_not_mem _ _ _ _ hr
    have hin : tok ∈ rand := reroll_mem_draws _ _ _ _ hcoll hr
    refine ⟨tok, hin, hne, ?_, hlen tok hin, ?_, ?_⟩
    · intro he
      rw [he] at hne
      exact hne hcoll
    · rw [← h]
    · rw [← h]

/-- A connection with a pending ping under token 0x05, and its state
after a colliding ping call drew the fresh token 0x01 0x02 0x03 0x04. -/
def connPingEx : WSConn :=
  { connBase with pings := [([5], 0)] }

def connPing2Ex : WSConn :=
  { connPingEx with
      pings := [([5], 0), ([1, 2, 3, 4], 1)],
      sent := [⟨true, WS_OP_PING, [1, 2, 3, 4]⟩] }

/-- Witness for C10: the supplied payload 0x05 collides with the
pending token 0x05, so the sent token is the fresh draw. -/
theorem C10_ping_collision_substitution_witness :
    connPingEx.state = WSState.OPEN ∧
    connPingEx.transfer_done = false ∧
    ([5] : List Nat) ∈ pingTokens connPingEx ∧
    (∀ d ∈ ([[1, 2, 3, 4]] : List (List Nat)), d.length = 4) ∧
    (∃ tok, tok ∈ ([[1, 2, 3, 4]] : List (List Nat)) ∧
      tok ∉ pingTokens connPingEx ∧ tok ≠ [5] ∧ tok.length = 4 ∧
      connPing2Ex.pings = connPingEx.pings ++ [(tok, 1)] ∧
      connPing2Ex.sent = connPingEx.sent ++ [⟨true, WS_OP_PING, tok⟩]) :=
  ⟨rfl, rfl, by decide, by decide,
    C10_ping_collision_substitution connPingEx [5] [[1, 2, 3, 4]] 1 connPing2Ex
      rfl rfl (by decide) (by decide) rfl⟩

end WS
